import Mathlib

/-!
Verification of the easyfix message-schema compiler
(easyfix-messages-gen/src/gen.rs) against its specification.

The development shallowly embeds the schema compiler: the dictionary data
model, the member resolver (process_members), the group memoization map,
the begin-string derivation and generated deserialize entry logic of
Generator::new, the enumeration builder, and the reject-reason mapping.
Mutable state (the descriptor accumulator and the group map) is passed
explicitly; recursion through components is bounded by an explicit fuel
counter, with fuel exhaustion modelling divergence; Rust panics and
expect failures are modelled by Option none.
-/

/-- Primitive field types of the dictionary model. The discriminated cases
used by gen.rs are length, data, xmlData and boolean; the remaining cases
are representative scalar types from the dictionary crate. -/
inductive BasicType
  | string
  | int
  | float
  | char
  | boolean
  | data
  | xmlData
  | length
  | numInGroup
  | utcTimestamp
  deriving DecidableEq, Repr

/-- Kind of a raw dictionary member reference. -/
inductive MemberKind
  | component
  | field
  deriving DecidableEq, Repr

/-- Raw dictionary member reference: kind, referenced name, required flag. -/
structure Member where
  kind : MemberKind
  name : String
  required : Bool
  deriving DecidableEq, Repr

/-- Field definition from the dictionary: name, tag number, primitive type
and optional closed value set of wire-value and symbolic-name pairs. -/
structure FieldDef where
  name : String
  number : Nat
  type_ : BasicType
  values : Option (List (String × String))
  deriving DecidableEq, Repr

/-- Component definition: name, ordered member list, and the optional
number-of-elements member that marks a repeating-group template. -/
structure ComponentDef where
  name : String
  members : List Member
  number_of_elements : Option Member
  deriving DecidableEq, Repr

/-- Protocol version descriptor: major, minor and service-pack numbers. -/
structure FixVersion where
  major : Nat
  minor : Nat
  service_pack : Nat
  deriving DecidableEq, Repr

/-- Dictionary snapshot consumed by the generator: a name-keyed field
table, a name-keyed component table, the flat field list, and the two
optional protocol version descriptors. -/
structure Dictionary where
  fields_by_name : List (String × FieldDef)
  components : List (String × ComponentDef)
  fields : List FieldDef
  fixt_version : Option FixVersion
  fix_version : Option FixVersion
  deriving DecidableEq, Repr

/-- Name-keyed association lookup, modelling HashMap get on the
dictionary tables and the group map. -/
def lookup_assoc {α : Type} : List (String × α) → String → Option α
  | [], _ => none
  | (key, value) :: rest, name => if key = name then some value else lookup_assoc rest name

/-- Modelled from the spec: the SimpleMember constructor discriminators of
the missing member.rs (field, length, num_in_group and group constructor
functions used by gen.rs). -/
inductive SimpleKind
  | field
  | length
  | num_in_group
  | group
  deriving DecidableEq, Repr

/-- Modelled from the spec: a resolved scalar member of the missing
member.rs, carrying name, tag number, required flag and primitive type,
plus the constructor discriminator. -/
structure SimpleMember where
  name : String
  tag_num : Nat
  required : Bool
  type_ : BasicType
  kind : SimpleKind
  deriving DecidableEq, Repr

/-- Modelled from the spec: SimpleMember constructor for a plain field. -/
def SimpleMember.field (name : String) (number : Nat) (required : Bool)
    (type_ : BasicType) : SimpleMember :=
  { name := name, tag_num := number, required := required, type_ := type_,
    kind := SimpleKind.field }

/-- Modelled from the spec: SimpleMember constructor for a length field. -/
def SimpleMember.length (name : String) (number : Nat) (required : Bool) : SimpleMember :=
  { name := name, tag_num := number, required := required, type_ := BasicType.length,
    kind := SimpleKind.length }

/-- Modelled from the spec: SimpleMember constructor for a group count
field. -/
def SimpleMember.num_in_group (name : String) (number : Nat) (required : Bool) : SimpleMember :=
  { name := name, tag_num := number, required := required, type_ := BasicType.numInGroup,
    kind := SimpleKind.num_in_group }

/-- Modelled from the spec: SimpleMember constructor for the companion
group descriptor carrying the group name and the count-field tag. -/
def SimpleMember.group (name : String) (number : Nat) (required : Bool) : SimpleMember :=
  { name := name, tag_num := number, required := required, type_ := BasicType.numInGroup,
    kind := SimpleKind.group }

/-- Modelled from the spec: the resolved member descriptor sum type of the
missing member.rs, with the four shapes constructed by gen.rs. -/
inductive MemberDesc
  | Simple (member : SimpleMember)
  | Enumeration (member : SimpleMember)
  | CustomLength (length_member : SimpleMember) (data_member : SimpleMember)
  | Group (number_of_elements : SimpleMember) (group_member : SimpleMember)
      (element_tags : List Nat)
  deriving DecidableEq, Repr

/-- Modelled from the spec: MemberDesc simple constructor of member.rs. -/
def MemberDesc.simple (name : String) (number : Nat) (required : Bool)
    (type_ : BasicType) : MemberDesc :=
  MemberDesc.Simple (SimpleMember.field name number required type_)

/-- Modelled from the spec: MemberDesc enumeration constructor of
member.rs. -/
def MemberDesc.enumeration (name : String) (number : Nat) (required : Bool)
    (type_ : BasicType) : MemberDesc :=
  MemberDesc.Enumeration (SimpleMember.field name number required type_)

/-- Modelled from the spec: MemberDesc custom_length constructor of
member.rs, pairing a length member with a data member. -/
def MemberDesc.custom_length (length_member data_member : SimpleMember) : MemberDesc :=
  MemberDesc.CustomLength length_member data_member

/-- Modelled from the spec: MemberDesc group constructor of member.rs. -/
def MemberDesc.group (number_of_elements group_member : SimpleMember)
    (element_tags : List Nat) : MemberDesc :=
  MemberDesc.Group number_of_elements group_member element_tags

/-- Message properties attached to message structs; group structs carry
none. -/
structure MessageProperties where
  msg_cat : String
  msg_type : String
  deriving DecidableEq, Repr

/-- Output struct of the schema assembler: name, ordered resolved member
list, optional message properties (none for groups, header, trailer). -/
structure Struct where
  name : String
  members : List MemberDesc
  msg_props : Option MessageProperties
  deriving DecidableEq, Repr

/-- The group memoization map of one compilation run, keyed by component
name, modelling the HashMap of Generator::new. -/
abbrev GroupsMap : Type := List (String × Struct)

/-- HashMap entry-or-insert-with semantics of the group registration in
process_members: the first registered struct for a name wins, a later
insert for the same name is a no-op. -/
def insert_if_absent (groups : GroupsMap) (name : String) (struct_ : Struct) : GroupsMap :=
  match lookup_assoc groups name with
  | some _ => groups
  | none => groups ++ [(name, struct_)]

/-- The element-tag collection of the group arm of process_members: keep
exactly the Simple descriptors of the group element schema, in order, and
take their tag numbers. -/
def element_tags : List MemberDesc → List Nat
  | [] => []
  | MemberDesc.Simple member :: rest => member.tag_num :: element_tags rest
  | _ :: rest => element_tags rest

/-- The member resolver of gen.rs (process_members), with the descriptor
accumulator and group map passed explicitly. Fuel bounds recursion through
components; none models a Rust panic (failed expect or assert) or fuel
exhaustion. The peeked member in the length arm is deliberately not
consumed, exactly as in the source. -/
def process_members (dictionary : Dictionary) :
    Nat → List Member → List MemberDesc → GroupsMap → Option (List MemberDesc × GroupsMap)
  | _, [], members_descs, groups => some (members_descs, groups)
  | 0, _ :: _, _, _ => none
  | fuel + 1, member :: rest, members_descs, groups =>
    if member.kind = MemberKind.component then
      match lookup_assoc dictionary.components member.name with
      | none => none
      | some component =>
        match component.number_of_elements with
        | some number_of_elements =>
          match lookup_assoc dictionary.fields_by_name number_of_elements.name with
          | none => none
          | some number_of_elements_field =>
            match process_members dictionary fuel component.members [] groups with
            | none => none
            | some (group_members, groups1) =>
              if component.name = member.name then
                process_members dictionary fuel rest
                  (members_descs ++
                    [MemberDesc.group
                      (SimpleMember.num_in_group number_of_elements.name
                        number_of_elements_field.number member.required)
                      (SimpleMember.group member.name
                        number_of_elements_field.number member.required)
                      (element_tags group_members),
                     MemberDesc.Simple
                      (SimpleMember.group member.name
                        number_of_elements_field.number member.required)])
                  (insert_if_absent groups1 component.name
                    { name := component.name, members := group_members, msg_props := none })
              else none
        | none =>
          match process_members dictionary fuel component.members members_descs groups with
          | none => none
          | some (members_descs1, groups1) =>
            process_members dictionary fuel rest members_descs1 groups1
    else
      match lookup_assoc dictionary.fields_by_name member.name with
      | none => none
      | some field =>
        if field.type_ = BasicType.length then
          match rest with
          | [] => process_members dictionary fuel rest members_descs groups
          | next_member :: _ =>
            match lookup_assoc dictionary.fields_by_name next_member.name with
            | none => none
            | some next_field =>
              if next_field.type_ = BasicType.data ∨ next_field.type_ = BasicType.xmlData then
                process_members dictionary fuel rest
                  (members_descs ++
                    [MemberDesc.custom_length
                      (SimpleMember.length member.name field.number member.required)
                      (SimpleMember.field next_member.name next_field.number
                        next_member.required next_field.type_)])
                  groups
              else
                process_members dictionary fuel rest
                  (members_descs ++
                    [MemberDesc.simple member.name field.number member.required field.type_])
                  groups
        else if field.type_ = BasicType.boolean then
          process_members dictionary fuel rest
            (members_descs ++
              [MemberDesc.simple member.name field.number member.required BasicType.boolean])
            groups
        else if field.values.isSome then
          process_members dictionary fuel rest
            (members_descs ++
              [MemberDesc.enumeration member.name field.number member.required field.type_])
            groups
        else
          process_members dictionary fuel rest
            (members_descs ++
              [MemberDesc.simple member.name field.number member.required field.type_])
            groups

/-- The begin-string formatting of Generator::new: protocol prefix joined
with major and minor, with an SP suffix exactly when the service pack is
non-zero. -/
def begin_string_format (protocol : String) (version : FixVersion) : String :=
  if version.service_pack = 0 then
    protocol ++ "." ++ toString version.major ++ "." ++ toString version.minor
  else
    protocol ++ "." ++ toString version.major ++ "." ++ toString version.minor
      ++ "SP" ++ toString version.service_pack

/-- The begin-string derivation of Generator::new: a FIXT version wins,
otherwise a FIX version is used, otherwise the generator panics (none). -/
def begin_string_bytes (dictionary : Dictionary) : Option String :=
  match dictionary.fixt_version with
  | some version => some (begin_string_format "FIXT" version)
  | none =>
    match dictionary.fix_version with
    | some version => some (begin_string_format "FIX" version)
    | none => none

/-- Enumeration definition produced by the generator for a field with a
closed value set. -/
structure EnumDesc where
  name : String
  type_ : BasicType
  values : List (String × String)
  deriving DecidableEq, Repr

/-- The enumeration builder loop of Generator::new: skip boolean fields,
emit one EnumDesc per remaining field that declares a value set. -/
def generate_enums : List FieldDef → List EnumDesc
  | [] => []
  | field :: rest =>
    if field.type_ = BasicType.boolean then generate_enums rest
    else
      match field.values with
      | some values => { name := field.name, type_ := field.type_, values := values } :: generate_enums rest
      | none => generate_enums rest

/-- Restatement of the enumeration builder in the words of the spec: one
EnumDesc exactly per non-boolean field carrying a closed value set. Used
only to compare against generate_enums. -/
def enum_fields_spec (fields : List FieldDef) : List EnumDesc :=
  (fields.filter fun field =>
      !(field.type_ = BasicType.boolean : Bool) && field.values.isSome).map
    fun field =>
      { name := field.name, type_ := field.type_, values := field.values.getD [] }

/-- Modelled from the spec: the parse-time reject-reason variants of the
deserializer crate (not under src), as a closed enumeration. -/
inductive ParseRejectReason
  | invalidTagNumber
  | requiredTagMissing
  | tagNotDefinedForThisMessageType
  | undefinedTag
  | tagSpecifiedWithoutAValue
  | valueIsIncorrect
  | incorrectDataFormatForValue
  | compidProblem
  | sendingtimeAccuracyProblem
  | invalidMsgtype
  | xmlValidationError
  | tagAppearsMoreThanOnce
  | tagSpecifiedOutOfRequiredOrder
  | repeatingGroupFieldsOutOfOrder
  | incorrectNumingroupCountForRepeatingGroup
  | nonDataValueIncludesFieldDelimiter
  deriving DecidableEq, Repr

/-- Modelled from the spec: the strum AsRef symbolic name of each
parse-reject-reason variant. -/
def ParseRejectReason.as_ref : ParseRejectReason → String
  | ParseRejectReason.invalidTagNumber => "InvalidTagNumber"
  | ParseRejectReason.requiredTagMissing => "RequiredTagMissing"
  | ParseRejectReason.tagNotDefinedForThisMessageType => "TagNotDefinedForThisMessageType"
  | ParseRejectReason.undefinedTag => "UndefinedTag"
  | ParseRejectReason.tagSpecifiedWithoutAValue => "TagSpecifiedWithoutAValue"
  | ParseRejectReason.valueIsIncorrect => "ValueIsIncorrect"
  | ParseRejectReason.incorrectDataFormatForValue => "IncorrectDataFormatForValue"
  | ParseRejectReason.compidProblem => "CompidProblem"
  | ParseRejectReason.sendingtimeAccuracyProblem => "SendingtimeAccuracyProblem"
  | ParseRejectReason.invalidMsgtype => "InvalidMsgtype"
  | ParseRejectReason.xmlValidationError => "XmlValidationError"
  | ParseRejectReason.tagAppearsMoreThanOnce => "TagAppearsMoreThanOnce"
  | ParseRejectReason.tagSpecifiedOutOfRequiredOrder => "TagSpecifiedOutOfRequiredOrder"
  | ParseRejectReason.repeatingGroupFieldsOutOfOrder => "RepeatingGroupFieldsOutOfOrder"
  | ParseRejectReason.incorrectNumingroupCountForRepeatingGroup => "IncorrectNumingroupCountForRepeatingGroup"
  | ParseRejectReason.nonDataValueIncludesFieldDelimiter => "NonDataValueIncludesFieldDelimiter"

/-- Modelled from the spec: the strum iteration order over all
parse-reject-reason variants, in declaration order. -/
def ParseRejectReason.iter : List ParseRejectReason :=
  [ParseRejectReason.invalidTagNumber,
   ParseRejectReason.requiredTagMissing,
   ParseRejectReason.tagNotDefinedForThisMessageType,
   ParseRejectReason.undefinedTag,
   ParseRejectReason.tagSpecifiedWithoutAValue,
   ParseRejectReason.valueIsIncorrect,
   ParseRejectReason.incorrectDataFormatForValue,
   ParseRejectReason.compidProblem,
   ParseRejectReason.sendingtimeAccuracyProblem,
   ParseRejectReason.invalidMsgtype,
   ParseRejectReason.xmlValidationError,
   ParseRejectReason.tagAppearsMoreThanOnce,
   ParseRejectReason.tagSpecifiedOutOfRequiredOrder,
   ParseRejectReason.repeatingGroupFieldsOutOfOrder,
   ParseRejectReason.incorrectNumingroupCountForRepeatingGroup,
   ParseRejectReason.nonDataValueIncludesFieldDelimiter]

/-- HashMap insert semantics over the reject-reason association list:
replace the binding when the key is present, append it otherwise. -/
def map_insert : List (ParseRejectReason × String) → ParseRejectReason → String →
    List (ParseRejectReason × String)
  | [], key, value => [(key, value)]
  | (k, v) :: rest, key, value =>
    if k = key then (key, value) :: rest else (k, v) :: map_insert rest key value

/-- HashMap lookup over the reject-reason association list. -/
def map_lookup : List (ParseRejectReason × String) → ParseRejectReason → Option String
  | [], _ => none
  | (k, v) :: rest, key => if k = key then some v else map_lookup rest key

/-- The reject-reason map construction of Generator::generate_fields:
start from the name-identical default over every variant, then insert
every override in order. -/
def reject_reason_map (overrides : List (ParseRejectReason × String)) :
    List (ParseRejectReason × String) :=
  overrides.foldl (fun m kv => map_insert m kv.1 kv.2)
    (ParseRejectReason.iter.map fun reason => (reason, reason.as_ref))

/-- Restatement of the reject-reason image in the words of the spec: the
override value when the key is overridden (last override wins), else the
name-identical default. Used only to compare against reject_reason_map. -/
def reject_reason_spec (overrides : List (ParseRejectReason × String))
    (reason : ParseRejectReason) : String :=
  match map_lookup overrides.reverse reason with
  | some value => value
  | none => reason.as_ref

/-- Decode failure classification of the generated FixtMessage entry
point: garbled-message failures and field-level rejections. -/
inductive DeserializeError
  | garbledMessage (text : String)
  | reject (tag : Option Nat) (reason : ParseRejectReason)
  deriving DecidableEq, Repr

/-- Modelled from the spec: the observable state of the external
low-level deserializer consumed by the generated FixtMessage deserialize
entry point: the begin-string of the inbound message, the body length,
the outcome of reading the third tag number, and the outcome of reading
the message-type value. -/
structure Deserializer where
  begin_string : String
  body_length : Nat
  tag_num_result : Except String (Option Nat)
  msg_type_result : Except DeserializeError String
  deriving Repr

/-- The generated FixtMessage deserialize entry logic of gen.rs: compare
the begin-string byte-for-byte against the compiled literal, require the
third tag to be MsgType 35, then look the message-type value up among the
compiled message types; an unknown value is rejected as InvalidMsgtype.
A successful envelope check returns the message-type value, standing for
dispatch into the per-message body decoder. -/
def fixt_message_deserialize (compiled_begin_string : String) (msg_types : List String)
    (deserializer : Deserializer) : Except DeserializeError String :=
  if deserializer.begin_string ≠ compiled_begin_string then
    Except.error (DeserializeError.garbledMessage "begin string mismatch")
  else
    match deserializer.tag_num_result with
    | Except.error e =>
      Except.error (DeserializeError.garbledMessage ("failed to parse MsgType<35>: " ++ e))
    | Except.ok tag_num =>
      if tag_num = some 35 then
        match deserializer.msg_type_result with
        | Except.error e => Except.error e
        | Except.ok msg_type =>
          if msg_types.contains msg_type then Except.ok msg_type
          else Except.error (DeserializeError.reject (some 35) ParseRejectReason.invalidMsgtype)
      else Except.error (DeserializeError.garbledMessage "MsgType<35> not third tag")

/-- Example dictionary with a Length field followed by a Data field. -/
def raw_data_dictionary : Dictionary :=
  { fields_by_name :=
      [("RawDataLength",
        { name := "RawDataLength", number := 95, type_ := BasicType.length, values := none }),
       ("RawData",
        { name := "RawData", number := 96, type_ := BasicType.data, values := none }),
       ("CheckSum",
        { name := "CheckSum", number := 10, type_ := BasicType.string, values := none })],
    components := [],
    fields := [],
    fixt_version := none,
    fix_version := none }

/-- Member list declaring RawDataLength immediately followed by RawData. -/
def raw_data_members : List Member :=
  [{ kind := MemberKind.field, name := "RawDataLength", required := true },
   { kind := MemberKind.field, name := "RawData", required := true }]

/-- Example dictionary with one repeating-group component of three scalar
sub-fields. -/
def parties_dictionary : Dictionary :=
  { fields_by_name :=
      [("NoPartyIDs",
        { name := "NoPartyIDs", number := 453, type_ := BasicType.numInGroup, values := none }),
       ("PartyID",
        { name := "PartyID", number := 448, type_ := BasicType.string, values := none }),
       ("PartyIDSource",
        { name := "PartyIDSource", number := 447, type_ := BasicType.char, values := none }),
       ("PartyRole",
        { name := "PartyRole", number := 452, type_ := BasicType.int, values := none })],
    components :=
      [("Parties",
        { name := "Parties",
          members :=
            [{ kind := MemberKind.field, name := "PartyID", required := false },
             { kind := MemberKind.field, name := "PartyIDSource", required := false },
             { kind := MemberKind.field, name := "PartyRole", required := false }],
          number_of_elements :=
            some { kind := MemberKind.field, name := "NoPartyIDs", required := false } })],
    fields := [],
    fixt_version := none,
    fix_version := none }

/-- Message member list with a single required reference to the Parties
group component. -/
def parties_message_members : List Member :=
  [{ kind := MemberKind.component, name := "Parties", required := true }]

/-- The three Simple descriptors of the resolved Parties element schema. -/
def parties_group_members : List MemberDesc :=
  [MemberDesc.simple "PartyID" 448 false BasicType.string,
   MemberDesc.simple "PartyIDSource" 447 false BasicType.char,
   MemberDesc.simple "PartyRole" 452 false BasicType.int]

/-- Example dictionary with a boolean field that declares a value set. -/
def bool_dictionary : Dictionary :=
  { fields_by_name :=
      [("PossDupFlag",
        { name := "PossDupFlag", number := 43, type_ := BasicType.boolean,
          values := some [("Y", "Yes"), ("N", "No")] })],
    components := [],
    fields :=
      [{ name := "PossDupFlag", number := 43, type_ := BasicType.boolean,
         values := some [("Y", "Yes"), ("N", "No")] },
       { name := "Side", number := 54, type_ := BasicType.char,
         values := some [("1", "Buy"), ("2", "Sell")] },
       { name := "ClOrdID", number := 11, type_ := BasicType.string, values := none }],
    fixt_version := none,
    fix_version := none }

/-- Example transport dictionary at version 4.4 with service pack 0. -/
def fixt44_dictionary : Dictionary :=
  { fields_by_name := [], components := [], fields := [],
    fixt_version := some { major := 4, minor := 4, service_pack := 0 },
    fix_version := none }

/-- Example transport dictionary at version 4.4 with service pack 2, also
declaring an application version that must be ignored. -/
def fixt44sp2_dictionary : Dictionary :=
  { fields_by_name := [], components := [], fields := [],
    fixt_version := some { major := 4, minor := 4, service_pack := 2 },
    fix_version := some { major := 5, minor := 0, service_pack := 1 } }

/-- C1 counterexample: resolving a Length field immediately followed by a
Data field emits the CustomLength pairing descriptor and then, when the
iterator reaches the Data member (which was only peeked, not consumed), a
second, independent Simple descriptor for the Data field; the claimed
two-position advance and absence of an own descriptor is false. -/
theorem c1_data_not_consumed :
    process_members raw_data_dictionary 10 raw_data_members [] [] =
      some ([MemberDesc.custom_length
              (SimpleMember.length "RawDataLength" 95 true)
              (SimpleMember.field "RawData" 96 true BasicType.data),
             MemberDesc.Simple (SimpleMember.field "RawData" 96 true BasicType.data)], [])
    ∧ (process_members raw_data_dictionary 10 raw_data_members [] []).map
        (fun result => result.1.length) ≠ some 1 := by
  constructor
  · rfl
  · decide

/-- C1 amended: for a member whose field type is Length with a following
member, exactly one descriptor is emitted at this step and the iterator
advances exactly one position in both cases: a CustomLength pairing
descriptor when the next field type is Data or XmlData (the next member
stays in the iterator and is re-classified independently later), and a
Simple descriptor for the Length field otherwise. -/
theorem c1_length_lookahead (dictionary : Dictionary) (fuel : Nat)
    (member next_member : Member) (rest : List Member) (acc : List MemberDesc)
    (groups : GroupsMap) (field next_field : FieldDef)
    (hkind : member.kind = MemberKind.field)
    (hfield : lookup_assoc dictionary.fields_by_name member.name = some field)
    (htype : field.type_ = BasicType.length)
    (hnext : lookup_assoc dictionary.fields_by_name next_member.name = some next_field) :
    (next_field.type_ = BasicType.data ∨ next_field.type_ = BasicType.xmlData →
      process_members dictionary (fuel + 1) (member :: next_member :: rest) acc groups =
        process_members dictionary fuel (next_member :: rest)
          (acc ++ [MemberDesc.custom_length
            (SimpleMember.length member.name field.number member.required)
            (SimpleMember.field next_member.name next_field.number
              next_member.required next_field.type_)])
          groups)
    ∧ (next_field.type_ ≠ BasicType.data → next_field.type_ ≠ BasicType.xmlData →
      process_members dictionary (fuel + 1) (member :: next_member :: rest) acc groups =
        process_members dictionary fuel (next_member :: rest)
          (acc ++ [MemberDesc.simple member.name field.number member.required field.type_])
          groups) := by
  constructor
  · intro hdata
    simp only [process_members, hkind, hfield, htype, hnext]
    simp [hdata]
  · intro hd hx
    simp only [process_members, hkind, hfield, htype, hnext]
    simp [hd, hx]

/-- C1 witness: the lookahead step theorem applied to the concrete
RawDataLength and RawData member pair. -/
theorem c1_length_lookahead_witness :
    process_members raw_data_dictionary 10 raw_data_members [] [] =
      process_members raw_data_dictionary 9
        [{ kind := MemberKind.field, name := "RawData", required := true }]
        [MemberDesc.custom_length (SimpleMember.length "RawDataLength" 95 true)
          (SimpleMember.field "RawData" 96 true BasicType.data)]
        [] :=
  (c1_length_lookahead raw_data_dictionary 9
    { kind := MemberKind.field, name := "RawDataLength", required := true }
    { kind := MemberKind.field, name := "RawData", required := true }
    [] [] []
    { name := "RawDataLength", number := 95, type_ := BasicType.length, values := none }
    { name := "RawData", number := 96, type_ := BasicType.data, values := none }
    rfl rfl rfl rfl).1 (Or.inl rfl)

/-- C3: resolving a component member that is a repeating-group template
emits the Group descriptor and its companion Simple descriptor with the
required flag of the count-field descriptor taken from the referencing
member, quantified over an arbitrary declared required flag on the
number-of-elements member itself, which goes unused. -/
theorem c3_count_required_from_membership (dictionary : Dictionary) (fuel : Nat)
    (member : Member) (rest : List Member) (acc : List MemberDesc) (groups : GroupsMap)
    (component : ComponentDef) (number_of_elements : Member)
    (number_of_elements_field : FieldDef) (group_members : List MemberDesc)
    (groups1 : GroupsMap)
    (hkind : member.kind = MemberKind.component)
    (hcomp : lookup_assoc dictionary.components member.name = some component)
    (hnoe : component.number_of_elements = some number_of_elements)
    (hnoef : lookup_assoc dictionary.fields_by_name number_of_elements.name =
      some number_of_elements_field)
    (hinner : process_members dictionary fuel component.members [] groups =
      some (group_members, groups1))
    (hname : component.name = member.name) :
    process_members dictionary (fuel + 1) (member :: rest) acc groups =
      process_members dictionary fuel rest
        (acc ++
          [MemberDesc.group
            (SimpleMember.num_in_group number_of_elements.name
              number_of_elements_field.number member.required)
            (SimpleMember.group member.name
              number_of_elements_field.number member.required)
            (element_tags group_members),
           MemberDesc.Simple
            (SimpleMember.group member.name
              number_of_elements_field.number member.required)])
        (insert_if_absent groups1 component.name
          { name := component.name, members := group_members, msg_props := none }) := by
  simp only [process_members, hkind, hcomp, hnoe, hnoef, hinner]
  simp [hname]

/-- C3 witness: the step theorem applied to the Parties dictionary, where
the NoPartyIDs member declares required false but the component
membership is required, so the emitted count-field descriptor is
required. -/
theorem c3_count_required_witness :
    process_members parties_dictionary 10 parties_message_members [] [] =
      process_members parties_dictionary 9 []
        [MemberDesc.group (SimpleMember.num_in_group "NoPartyIDs" 453 true)
          (SimpleMember.group "Parties" 453 true) [448, 447, 452],
         MemberDesc.Simple (SimpleMember.group "Parties" 453 true)]
        [("Parties",
          { name := "Parties", members := parties_group_members, msg_props := none })] :=
  c3_count_required_from_membership parties_dictionary 9
    { kind := MemberKind.component, name := "Parties", required := true }
    [] [] []
    { name := "Parties",
      members :=
        [{ kind := MemberKind.field, name := "PartyID", required := false },
         { kind := MemberKind.field, name := "PartyIDSource", required := false },
         { kind := MemberKind.field, name := "PartyRole", required := false }],
      number_of_elements :=
        some { kind := MemberKind.field, name := "NoPartyIDs", required := false } }
    { kind := MemberKind.field, name := "NoPartyIDs", required := false }
    { name := "NoPartyIDs", number := 453, type_ := BasicType.numInGroup, values := none }
    parties_group_members []
    rfl rfl rfl rfl rfl rfl

/-- C4: a Length-typed field member that is the last member of the list
produces no descriptor at all: the resolver returns successfully with the
accumulator and group map unchanged, a silent drop rather than an error. -/
theorem c4_trailing_length_silent_drop (dictionary : Dictionary) (fuel : Nat)
    (member : Member) (acc : List MemberDesc) (groups : GroupsMap) (field : FieldDef)
    (hkind : member.kind = MemberKind.field)
    (hfield : lookup_assoc dictionary.fields_by_name member.name = some field)
    (htype : field.type_ = BasicType.length) :
    process_members dictionary (fuel + 1) [member] acc groups = some (acc, groups) := by
  simp only [process_members, hkind, hfield, htype]
  simp

/-- C4 witness: a member list holding only the RawDataLength field
resolves to the unchanged accumulator and group map. -/
theorem c4_trailing_length_witness :
    process_members raw_data_dictionary 10
      [{ kind := MemberKind.field, name := "RawDataLength", required := true }]
      [MemberDesc.simple "CheckSum" 10 true BasicType.string] [] =
      some ([MemberDesc.simple "CheckSum" 10 true BasicType.string], []) :=
  c4_trailing_length_silent_drop raw_data_dictionary 9
    { kind := MemberKind.field, name := "RawDataLength", required := true }
    [MemberDesc.simple "CheckSum" 10 true BasicType.string] []
    { name := "RawDataLength", number := 95, type_ := BasicType.length, values := none }
    rfl rfl rfl

/-- Relation between group maps across a resolver run: every registered
entry is preserved unchanged, and distinctness of the registered names is
preserved. -/
def groups_extends (g1 g2 : GroupsMap) : Prop :=
  (∀ name struct_, lookup_assoc g1 name = some struct_ →
    lookup_assoc g2 name = some struct_)
  ∧ ((g1.map Prod.fst).Nodup → (g2.map Prod.fst).Nodup)

theorem groups_extends_refl (g : GroupsMap) : groups_extends g g :=
  ⟨fun _ _ h => h, fun h => h⟩

theorem groups_extends_trans {g1 g2 g3 : GroupsMap}
    (h12 : groups_extends g1 g2) (h23 : groups_extends g2 g3) :
    groups_extends g1 g3 :=
  ⟨fun name s h => h23.1 name s (h12.1 name s h), fun h => h23.2 (h12.2 h)⟩

theorem lookup_assoc_append_left {α : Type} {g : List (String × α)} {name : String}
    {value : α} (h : lookup_assoc g name = some value) (g2 : List (String × α)) :
    lookup_assoc (g ++ g2) name = some value := by
  induction g with
  | nil => simp [lookup_assoc] at h
  | cons head tail ih =>
    obtain ⟨key, v⟩ := head
    simp only [lookup_assoc, List.cons_append] at h ⊢
    by_cases hk : key = name
    · simpa [hk] using h
    · rw [if_neg hk] at h ⊢
      exact ih h

theorem lookup_assoc_none_not_mem {α : Type} {g : List (String × α)} {name : String}
    (h : lookup_assoc g name = none) : name ∉ g.map Prod.fst := by
  induction g with
  | nil => simp
  | cons head tail ih =>
    obtain ⟨key, v⟩ := head
    simp only [lookup_assoc] at h
    by_cases hk : key = name
    · simp [hk] at h
    · rw [if_neg hk] at h
      simpa [Ne.symm hk] using ih h

theorem groups_extends_insert (g : GroupsMap) (name : String) (struct_ : Struct) :
    groups_extends g (insert_if_absent g name struct_) := by
  unfold insert_if_absent
  cases hl : lookup_assoc g name with
  | some s => exact groups_extends_refl g
  | none =>
    constructor
    · intro n s h
      exact lookup_assoc_append_left h _
    · intro hnd
      have hmem : name ∉ g.map Prod.fst := lookup_assoc_none_not_mem hl
      rw [List.map_append]
      refine hnd.append (List.nodup_singleton name) ?_
      intro a ha hb
      simp only [List.map_cons, List.map_nil, List.mem_singleton] at hb
      exact hmem (hb ▸ ha)


/-- C2: group schemas are memoized by component name across any resolver
run: every entry already registered in the group map is still mapped to
the identical struct afterwards (a later reference to the same component
name never replaces the first registered schema), and distinctness of the
registered names is preserved, so one compilation holds exactly one group
struct per distinct component name. -/
theorem c2_group_memoization :
    ∀ (fuel : Nat) (dictionary : Dictionary) (members : List Member)
      (acc : List MemberDesc) (groups : GroupsMap) (descs : List MemberDesc)
      (groups2 : GroupsMap),
      process_members dictionary fuel members acc groups = some (descs, groups2) →
      groups_extends groups groups2 := by
  intro fuel
  induction fuel with
  | zero =>
    intro dictionary members acc groups descs groups2 h
    cases members with
    | nil =>
      simp only [process_members, Option.some.injEq, Prod.mk.injEq] at h
      exact h.2 ▸ groups_extends_refl groups
    | cons m rest => simp [process_members] at h
  | succ fuel ih =>
    intro dictionary members acc groups descs groups2 h
    cases members with
    | nil =>
      simp only [process_members, Option.some.injEq, Prod.mk.injEq] at h
      exact h.2 ▸ groups_extends_refl groups
    | cons m rest =>
      rw [process_members] at h
      by_cases hk : m.kind = MemberKind.component
      · rw [if_pos hk] at h
        cases hcomp : lookup_assoc dictionary.components m.name with
        | none => simp only [hcomp] at h; simp at h
        | some component =>
          simp only [hcomp] at h
          cases hnoe : component.number_of_elements with
          | some noe =>
            simp only [hnoe] at h
            cases hnoef : lookup_assoc dictionary.fields_by_name noe.name with
            | none => simp only [hnoef] at h; simp at h
            | some noe_field =>
              simp only [hnoef] at h
              cases hinner : process_members dictionary fuel component.members [] groups with
              | none => simp only [hinner] at h; simp at h
              | some pair =>
                obtain ⟨group_members, groups1⟩ := pair
                simp only [hinner] at h
                by_cases hname : component.name = m.name
                · rw [if_pos hname] at h
                  exact groups_extends_trans
                    (groups_extends_trans (ih _ _ _ _ _ _ hinner)
                      (groups_extends_insert _ _ _))
                    (ih _ _ _ _ _ _ h)
                · rw [if_neg hname] at h; simp at h
          | none =>
            simp only [hnoe] at h
            cases hinner : process_members dictionary fuel component.members acc groups with
            | none => simp only [hinner] at h; simp at h
            | some pair =>
              obtain ⟨descs1, groups1⟩ := pair
              simp only [hinner] at h
              exact groups_extends_trans (ih _ _ _ _ _ _ hinner) (ih _ _ _ _ _ _ h)
      · rw [if_neg hk] at h
        cases hfield : lookup_assoc dictionary.fields_by_name m.name with
        | none => simp only [hfield] at h; simp at h
        | some field =>
          simp only [hfield] at h
          by_cases hlen : field.type_ = BasicType.length
          · rw [if_pos hlen] at h
            cases rest with
            | nil => exact ih _ _ _ _ _ _ h
            | cons next tail =>
              cases hnext : lookup_assoc dictionary.fields_by_name next.name with
              | none => simp only [hnext] at h; simp at h
              | some next_field =>
                simp only [hnext] at h
                by_cases hdata : next_field.type_ = BasicType.data ∨
                    next_field.type_ = BasicType.xmlData
                · rw [if_pos hdata] at h
                  exact ih _ _ _ _ _ _ h
                · rw [if_neg hdata] at h
                  exact ih _ _ _ _ _ _ h
          · rw [if_neg hlen] at h
            by_cases hbool : field.type_ = BasicType.boolean
            · rw [if_pos hbool] at h
              exact ih _ _ _ _ _ _ h
            · rw [if_neg hbool] at h
              by_cases hvals : field.values.isSome = true
              · rw [if_pos hvals] at h
                exact ih _ _ _ _ _ _ h
              · rw [if_neg hvals] at h
                exact ih _ _ _ _ _ _ h

/-- C2 witness: running the resolver over a message referencing the
Parties group while a struct is already registered under the name Parties
leaves the registered struct in place (the first registration wins). -/
theorem c2_group_memoization_witness :
    lookup_assoc
      ([("Parties", { name := "Parties", members := [], msg_props := none })] : GroupsMap)
      "Parties" =
      some { name := "Parties", members := [], msg_props := none } :=
  (c2_group_memoization 10 parties_dictionary parties_message_members []
    [("Parties", { name := "Parties", members := [], msg_props := none })]
    [MemberDesc.group (SimpleMember.num_in_group "NoPartyIDs" 453 true)
      (SimpleMember.group "Parties" 453 true) [448, 447, 452],
     MemberDesc.Simple (SimpleMember.group "Parties" 453 true)]
    [("Parties", { name := "Parties", members := [], msg_props := none })]
    rfl).1 "Parties" { name := "Parties", members := [], msg_props := none } rfl

/-- C5 counterexample: resolving a message holding one required reference
to the Parties group (three scalar sub-fields) emits the Group descriptor
first and the companion Simple descriptor second, so the resolved list
does not start with a Simple descriptor as the claim states. -/
theorem c5_group_order_counterexample :
    process_members parties_dictionary 10 parties_message_members [] [] =
      some ([MemberDesc.Group (SimpleMember.num_in_group "NoPartyIDs" 453 true)
              (SimpleMember.group "Parties" 453 true) [448, 447, 452],
             MemberDesc.Simple (SimpleMember.group "Parties" 453 true)],
            [("Parties",
              { name := "Parties", members := parties_group_members, msg_props := none })])
    ∧ ∀ (simple_member : SimpleMember) (desc : MemberDesc),
        ([MemberDesc.Group (SimpleMember.num_in_group "NoPartyIDs" 453 true)
            (SimpleMember.group "Parties" 453 true) [448, 447, 452],
          MemberDesc.Simple (SimpleMember.group "Parties" 453 true)] : List MemberDesc) ≠
          [MemberDesc.Simple simple_member, desc] := by
  refine ⟨rfl, ?_⟩
  intro simple_member desc h
  simp at h

/-- The resolver consumes no fuel on an empty member list. -/
theorem process_members_nil (dictionary : Dictionary) (fuel : Nat)
    (acc : List MemberDesc) (groups : GroupsMap) :
    process_members dictionary fuel [] acc groups = some (acc, groups) := by
  cases fuel <;> rfl

/-- One resolver step over a scalar field member: neither Length nor
Boolean typed and without a value set, it appends one Simple descriptor. -/
theorem process_members_scalar_step (dictionary : Dictionary) (fuel : Nat)
    (member : Member) (rest : List Member) (acc : List MemberDesc) (groups : GroupsMap)
    (field : FieldDef)
    (hkind : member.kind = MemberKind.field)
    (hfield : lookup_assoc dictionary.fields_by_name member.name = some field)
    (hlen : field.type_ ≠ BasicType.length)
    (hbool : field.type_ ≠ BasicType.boolean)
    (hvals : field.values = none) :
    process_members dictionary (fuel + 1) (member :: rest) acc groups =
      process_members dictionary fuel rest
        (acc ++ [MemberDesc.simple member.name field.number member.required field.type_])
        groups := by
  simp only [process_members, hkind, hfield]
  simp [hlen, hbool, hvals]

/-- One resolver step over a repeating-group component member, given the
resolution of the group element schema. -/
theorem process_members_group_step (dictionary : Dictionary) (fuel : Nat)
    (member : Member) (rest : List Member) (acc : List MemberDesc) (groups : GroupsMap)
    (component : ComponentDef) (number_of_elements : Member)
    (number_of_elements_field : FieldDef) (group_members : List MemberDesc)
    (groups1 : GroupsMap)
    (hkind : member.kind = MemberKind.component)
    (hcomp : lookup_assoc dictionary.components member.name = some component)
    (hnoe : component.number_of_elements = some number_of_elements)
    (hnoef : lookup_assoc dictionary.fields_by_name number_of_elements.name =
      some number_of_elements_field)
    (hinner : process_members dictionary fuel component.members [] groups =
      some (group_members, groups1))
    (hname : component.name = member.name) :
    process_members dictionary (fuel + 1) (member :: rest) acc groups =
      process_members dictionary fuel rest
        (acc ++
          [MemberDesc.group
            (SimpleMember.num_in_group number_of_elements.name
              number_of_elements_field.number member.required)
            (SimpleMember.group member.name
              number_of_elements_field.number member.required)
            (element_tags group_members),
           MemberDesc.Simple
            (SimpleMember.group member.name
              number_of_elements_field.number member.required)])
        (insert_if_absent groups1 component.name
          { name := component.name, members := group_members, msg_props := none }) := by
  simp only [process_members, hkind, hcomp, hnoe, hnoef, hinner]
  simp [hname]

/-- C5 amended: resolving a message member that references a repeating
group of exactly three scalar sub-fields (no value sets, not Length or
Boolean typed) yields at the position of the group reference exactly a
Group descriptor, whose count field carries the membership required flag
and whose element_tags are exactly the three sub-field tag numbers in
declaration order, immediately followed by the companion Simple
descriptor carrying the group name and the count-field tag. -/
theorem c5_group_scenario (dictionary : Dictionary) (fuel : Nat)
    (member : Member) (rest : List Member) (acc : List MemberDesc) (groups : GroupsMap)
    (component : ComponentDef) (number_of_elements : Member)
    (number_of_elements_field : FieldDef) (m1 m2 m3 : Member) (f1 f2 f3 : FieldDef)
    (hkind : member.kind = MemberKind.component)
    (hcomp : lookup_assoc dictionary.components member.name = some component)
    (hnoe : component.number_of_elements = some number_of_elements)
    (hnoef : lookup_assoc dictionary.fields_by_name number_of_elements.name =
      some number_of_elements_field)
    (hname : component.name = member.name)
    (hmembers : component.members = [m1, m2, m3])
    (hm1 : m1.kind = MemberKind.field)
    (hf1 : lookup_assoc dictionary.fields_by_name m1.name = some f1)
    (hl1 : f1.type_ ≠ BasicType.length) (hb1 : f1.type_ ≠ BasicType.boolean)
    (hv1 : f1.values = none)
    (hm2 : m2.kind = MemberKind.field)
    (hf2 : lookup_assoc dictionary.fields_by_name m2.name = some f2)
    (hl2 : f2.type_ ≠ BasicType.length) (hb2 : f2.type_ ≠ BasicType.boolean)
    (hv2 : f2.values = none)
    (hm3 : m3.kind = MemberKind.field)
    (hf3 : lookup_assoc dictionary.fields_by_name m3.name = some f3)
    (hl3 : f3.type_ ≠ BasicType.length) (hb3 : f3.type_ ≠ BasicType.boolean)
    (hv3 : f3.values = none) :
    process_members dictionary (fuel + 4) (member :: rest) acc groups =
      process_members dictionary (fuel + 3) rest
        (acc ++
          [MemberDesc.group
            (SimpleMember.num_in_group number_of_elements.name
              number_of_elements_field.number member.required)
            (SimpleMember.group member.name
              number_of_elements_field.number member.required)
            [f1.number, f2.number, f3.number],
           MemberDesc.Simple
            (SimpleMember.group member.name
              number_of_elements_field.number member.required)])
        (insert_if_absent groups component.name
          { name := component.name,
            members :=
              [MemberDesc.simple m1.name f1.number m1.required f1.type_,
               MemberDesc.simple m2.name f2.number m2.required f2.type_,
               MemberDesc.simple m3.name f3.number m3.required f3.type_],
            msg_props := none }) := by
  have h1 := process_members_scalar_step dictionary (fuel + 2) m1 [m2, m3] [] groups f1
    hm1 hf1 hl1 hb1 hv1
  have h2 := process_members_scalar_step dictionary (fuel + 1) m2 [m3]
    ([] ++ [MemberDesc.simple m1.name f1.number m1.required f1.type_]) groups f2
    hm2 hf2 hl2 hb2 hv2
  have h3 := process_members_scalar_step dictionary fuel m3 []
    ([] ++ [MemberDesc.simple m1.name f1.number m1.required f1.type_] ++
      [MemberDesc.simple m2.name f2.number m2.required f2.type_]) groups f3
    hm3 hf3 hl3 hb3 hv3
  have hnil := process_members_nil dictionary fuel
    ([] ++ [MemberDesc.simple m1.name f1.number m1.required f1.type_] ++
      [MemberDesc.simple m2.name f2.number m2.required f2.type_] ++
      [MemberDesc.simple m3.name f3.number m3.required f3.type_]) groups
  have hinner : process_members dictionary (fuel + 3) component.members [] groups =
      some ([MemberDesc.simple m1.name f1.number m1.required f1.type_,
             MemberDesc.simple m2.name f2.number m2.required f2.type_,
             MemberDesc.simple m3.name f3.number m3.required f3.type_], groups) := by
    rw [hmembers, h1, h2, h3, hnil]
    simp
  have hstep := process_members_group_step dictionary (fuel + 3) member rest acc groups
    component number_of_elements number_of_elements_field
    [MemberDesc.simple m1.name f1.number m1.required f1.type_,
     MemberDesc.simple m2.name f2.number m2.required f2.type_,
     MemberDesc.simple m3.name f3.number m3.required f3.type_] groups
    hkind hcomp hnoe hnoef hinner hname
  simpa [element_tags, MemberDesc.simple, SimpleMember.field] using hstep

/-- C5 witness: the amended scenario theorem applied to the concrete
Parties group with sub-fields PartyID, PartyIDSource and PartyRole. -/
theorem c5_group_scenario_witness :
    process_members parties_dictionary 10 parties_message_members [] [] =
      process_members parties_dictionary 9 []
        [MemberDesc.group (SimpleMember.num_in_group "NoPartyIDs" 453 true)
          (SimpleMember.group "Parties" 453 true) [448, 447, 452],
         MemberDesc.Simple (SimpleMember.group "Parties" 453 true)]
        [("Parties",
          { name := "Parties", members := parties_group_members, msg_props := none })] :=
  c5_group_scenario parties_dictionary 6
    { kind := MemberKind.component, name := "Parties", required := true }
    [] [] []
    { name := "Parties",
      members :=
        [{ kind := MemberKind.field, name := "PartyID", required := false },
         { kind := MemberKind.field, name := "PartyIDSource", required := false },
         { kind := MemberKind.field, name := "PartyRole", required := false }],
      number_of_elements :=
        some { kind := MemberKind.field, name := "NoPartyIDs", required := false } }
    { kind := MemberKind.field, name := "NoPartyIDs", required := false }
    { name := "NoPartyIDs", number := 453, type_ := BasicType.numInGroup, values := none }
    { kind := MemberKind.field, name := "PartyID", required := false }
    { kind := MemberKind.field, name := "PartyIDSource", required := false }
    { kind := MemberKind.field, name := "PartyRole", required := false }
    { name := "PartyID", number := 448, type_ := BasicType.string, values := none }
    { name := "PartyIDSource", number := 447, type_ := BasicType.char, values := none }
    { name := "PartyRole", number := 452, type_ := BasicType.int, values := none }
    rfl rfl rfl rfl rfl rfl
    rfl rfl (by decide) (by decide) rfl
    rfl rfl (by decide) (by decide) rfl
    rfl rfl (by decide) (by decide) rfl

/-- C6: the begin-string literal is the protocol prefix (FIXT for a
transport dictionary, FIX for an application dictionary) joined with the
major and minor numbers, with an SP suffix exactly when the service pack
is non-zero, and the generator fails when neither version is declared. -/
theorem c6_begin_string_literal (dictionary : Dictionary) (version : FixVersion) :
    (dictionary.fixt_version = some version → version.service_pack = 0 →
      begin_string_bytes dictionary =
        some ("FIXT" ++ "." ++ toString version.major ++ "." ++ toString version.minor))
    ∧ (dictionary.fixt_version = some version → version.service_pack ≠ 0 →
      begin_string_bytes dictionary =
        some ("FIXT" ++ "." ++ toString version.major ++ "." ++ toString version.minor
          ++ "SP" ++ toString version.service_pack))
    ∧ (dictionary.fixt_version = none → dictionary.fix_version = some version →
        version.service_pack = 0 →
      begin_string_bytes dictionary =
        some ("FIX" ++ "." ++ toString version.major ++ "." ++ toString version.minor))
    ∧ (dictionary.fixt_version = none → dictionary.fix_version = some version →
        version.service_pack ≠ 0 →
      begin_string_bytes dictionary =
        some ("FIX" ++ "." ++ toString version.major ++ "." ++ toString version.minor
          ++ "SP" ++ toString version.service_pack))
    ∧ (dictionary.fixt_version = none → dictionary.fix_version = none →
      begin_string_bytes dictionary = none) := by
  refine ⟨?_, ?_, ?_, ?_, ?_⟩
  · intro ht h0
    simp [begin_string_bytes, begin_string_format, ht, h0]
  · intro ht h0
    simp [begin_string_bytes, begin_string_format, ht, h0]
  · intro ht hf h0
    simp [begin_string_bytes, begin_string_format, ht, hf, h0]
  · intro ht hf h0
    simp [begin_string_bytes, begin_string_format, ht, hf, h0]
  · intro ht hf
    simp [begin_string_bytes, ht, hf]

/-- C6 witness: transport 4.4 with service pack 0 yields FIXT.4.4 and
with service pack 2 yields FIXT.4.4SP2. -/
theorem c6_begin_string_witness :
    begin_string_bytes fixt44_dictionary = some "FIXT.4.4"
    ∧ begin_string_bytes fixt44sp2_dictionary = some "FIXT.4.4SP2" :=
  ⟨((c6_begin_string_literal fixt44_dictionary
      { major := 4, minor := 4, service_pack := 0 }).1 rfl rfl).trans (by decide),
   ((c6_begin_string_literal fixt44sp2_dictionary
      { major := 4, minor := 4, service_pack := 2 }).2.1 rfl (by decide)).trans (by decide)⟩

/-- C10: a dictionary declaring both a transport and an application
version does not fail: the transport version alone determines the
begin-string with the FIXT prefix, the application version being ignored;
the generator panics exactly when neither version is declared. -/
theorem c10_transport_precedence (dictionary : Dictionary) (transport_version : FixVersion) :
    (dictionary.fixt_version = some transport_version →
      begin_string_bytes dictionary = some (begin_string_format "FIXT" transport_version))
    ∧ (begin_string_bytes dictionary = none ↔
        dictionary.fixt_version = none ∧ dictionary.fix_version = none) := by
  constructor
  · intro ht
    simp [begin_string_bytes, ht]
  · cases ht : dictionary.fixt_version with
    | some v => simp [begin_string_bytes, ht]
    | none =>
      cases hf : dictionary.fix_version with
      | some v => simp [begin_string_bytes, ht, hf]
      | none => simp [begin_string_bytes, ht, hf]

/-- C10 witness: the transport precedence theorem applied to a dictionary
declaring transport 4.4 SP2 and application 5.0 SP1: the application
version is ignored and no failure occurs. -/
theorem c10_transport_precedence_witness :
    begin_string_bytes fixt44sp2_dictionary = some "FIXT.4.4SP2" ∧
      fixt44sp2_dictionary.fix_version =
        some { major := 5, minor := 0, service_pack := 1 } :=
  ⟨((c10_transport_precedence fixt44sp2_dictionary
      { major := 4, minor := 4, service_pack := 2 }).1 rfl).trans (by decide), rfl⟩

/-- C9: a Boolean-typed field member always resolves to a Simple
descriptor even when the field declares a closed value set, and the
enumeration builder produces EnumDescs exactly for the non-boolean fields
carrying a closed value set. -/
theorem c9_boolean_never_enumerated :
    (∀ (dictionary : Dictionary) (fuel : Nat) (member : Member) (rest : List Member)
      (acc : List MemberDesc) (groups : GroupsMap) (field : FieldDef),
      member.kind = MemberKind.field →
      lookup_assoc dictionary.fields_by_name member.name = some field →
      field.type_ = BasicType.boolean →
      process_members dictionary (fuel + 1) (member :: rest) acc groups =
        process_members dictionary fuel rest
          (acc ++ [MemberDesc.simple member.name field.number member.required
            BasicType.boolean])
          groups)
    ∧ (∀ fields : List FieldDef, generate_enums fields = enum_fields_spec fields)
    ∧ (∀ fields : List FieldDef, ∀ e ∈ generate_enums fields,
        e.type_ ≠ BasicType.boolean) := by
  have hspec : ∀ fields : List FieldDef, generate_enums fields = enum_fields_spec fields := by
    intro fields
    induction fields with
    | nil => rfl
    | cons field rest ih =>
      by_cases hb : field.type_ = BasicType.boolean
      · simp [generate_enums, enum_fields_spec, hb, List.filter] at ih ⊢
        exact ih
      · cases hv : field.values with
        | some values =>
          simp [generate_enums, enum_fields_spec, hb, hv, List.filter] at ih ⊢
          exact ih
        | none =>
          simp [generate_enums, enum_fields_spec, hb, hv, List.filter] at ih ⊢
          exact ih
  refine ⟨?_, hspec, ?_⟩
  · intro dictionary fuel member rest acc groups field hkind hfield htype
    simp only [process_members, hkind, hfield]
    simp [htype]
  · intro fields e he
    rw [hspec fields] at he
    simp only [enum_fields_spec, List.mem_map, List.mem_filter] at he
    obtain ⟨f, ⟨hmem, hcond⟩, rfl⟩ := he
    intro habs
    simp only [EnumDesc.type_] at habs
    rw [habs] at hcond
    simp at hcond

/-- C9 witness: the boolean field PossDupFlag, declared with a value set,
resolves to a Simple descriptor. -/
theorem c9_boolean_never_enumerated_witness :
    process_members bool_dictionary 3
      [{ kind := MemberKind.field, name := "PossDupFlag", required := true }] [] [] =
      process_members bool_dictionary 2 []
        [MemberDesc.simple "PossDupFlag" 43 true BasicType.boolean] [] :=
  c9_boolean_never_enumerated.1 bool_dictionary 2
    { kind := MemberKind.field, name := "PossDupFlag", required := true } [] [] []
    { name := "PossDupFlag", number := 43, type_ := BasicType.boolean,
      values := some [("Y", "Yes"), ("N", "No")] }
    rfl rfl rfl

theorem map_lookup_insert (m : List (ParseRejectReason × String))
    (key : ParseRejectReason) (value : String) (q : ParseRejectReason) :
    map_lookup (map_insert m key value) q =
      if key = q then some value else map_lookup m q := by
  induction m with
  | nil => rfl
  | cons head rest ih =>
    obtain ⟨k0, v0⟩ := head
    by_cases hk : k0 = key
    · subst hk
      by_cases hq : k0 = q
      · simp [map_insert, map_lookup, hq]
      · simp [map_insert, map_lookup, hq]
    · by_cases hq : k0 = q
      · subst hq
        have : ¬key = k0 := fun h => hk h.symm
        simp [map_insert, map_lookup, hk, this]
      · simp [map_insert, map_lookup, hk, hq, ih]

theorem map_lookup_append (l1 l2 : List (ParseRejectReason × String))
    (q : ParseRejectReason) :
    map_lookup (l1 ++ l2) q =
      match map_lookup l1 q with
      | some v => some v
      | none => map_lookup l2 q := by
  induction l1 with
  | nil => rfl
  | cons head rest ih =>
    obtain ⟨k0, v0⟩ := head
    by_cases hq : k0 = q
    · simp [map_lookup, hq]
    · simp [map_lookup, hq, ih]

theorem map_insert_mem_keys (m : List (ParseRejectReason × String))
    (key : ParseRejectReason) (value : String) (q : ParseRejectReason)
    (h : q ∈ (map_insert m key value).map Prod.fst) :
    q = key ∨ q ∈ m.map Prod.fst := by
  induction m with
  | nil => simpa [map_insert] using h
  | cons head rest ih =>
    obtain ⟨k0, v0⟩ := head
    by_cases hk : k0 = key
    · subst hk
      simpa [map_insert] using h
    · simp only [map_insert, if_neg hk, List.map_cons, List.mem_cons] at h
      rcases h with h | h
      · exact Or.inr (by simp [h])
      · rcases ih h with h | h
        · exact Or.inl h
        · exact Or.inr (by simp [h])

theorem map_insert_nodup (m : List (ParseRejectReason × String))
    (key : ParseRejectReason) (value : String)
    (h : (m.map Prod.fst).Nodup) :
    ((map_insert m key value).map Prod.fst).Nodup := by
  induction m with
  | nil => simp [map_insert]
  | cons head rest ih =>
    obtain ⟨k0, v0⟩ := head
    simp only [List.map_cons, List.nodup_cons] at h
    by_cases hk : k0 = key
    · subst hk
      have hins : map_insert ((k0, v0) :: rest) k0 value = (k0, value) :: rest := by
        simp [map_insert]
      rw [hins]
      simpa using h
    · simp only [map_insert, if_neg hk, List.map_cons, List.nodup_cons]
      refine ⟨?_, ih h.2⟩
      intro hmem
      rcases map_insert_mem_keys rest key value k0 hmem with heq | hmem2
      · exact hk heq
      · exact h.1 hmem2

theorem reject_fold_lookup (overrides : List (ParseRejectReason × String))
    (m : List (ParseRejectReason × String)) (q : ParseRejectReason) :
    map_lookup (overrides.foldl (fun acc kv => map_insert acc kv.1 kv.2) m) q =
      match map_lookup overrides.reverse q with
      | some v => some v
      | none => map_lookup m q := by
  induction overrides generalizing m with
  | nil => rfl
  | cons head rest ih =>
    obtain ⟨k0, v0⟩ := head
    simp only [List.foldl_cons, List.reverse_cons]
    rw [ih, map_lookup_append, map_lookup_insert]
    cases map_lookup rest.reverse q with
    | some v => rfl
    | none =>
      by_cases hq : k0 = q
      · simp [map_lookup, hq]
      · simp [map_lookup, hq]

theorem reject_fold_nodup (overrides : List (ParseRejectReason × String))
    (m : List (ParseRejectReason × String))
    (h : (m.map Prod.fst).Nodup) :
    ((overrides.foldl (fun acc kv => map_insert acc kv.1 kv.2) m).map Prod.fst).Nodup := by
  induction overrides generalizing m with
  | nil => exact h
  | cons head rest ih =>
    simp only [List.foldl_cons]
    exact ih _ (map_insert_nodup _ _ _ h)

theorem reject_default_lookup (q : ParseRejectReason) :
    map_lookup (ParseRejectReason.iter.map fun reason => (reason, reason.as_ref)) q =
      some q.as_ref := by
  cases q <;> rfl

/-- C8: the reject-reason mapping is total over the parse-reject-reason
domain with exactly one image per variant (the key list of the built map
is duplicate-free), the image is the session reason of the same symbolic
name by default, and an override strictly replaces the default image of
its key. -/
theorem c8_reject_reason_total (overrides : List (ParseRejectReason × String))
    (reason : ParseRejectReason) :
    map_lookup (reject_reason_map overrides) reason =
      some (reject_reason_spec overrides reason)
    ∧ ((reject_reason_map overrides).map Prod.fst).Nodup := by
  constructor
  · rw [reject_reason_map, reject_fold_lookup]
    unfold reject_reason_spec
    cases map_lookup overrides.reverse reason with
    | some v => rfl
    | none => exact reject_default_lookup reason
  · rw [reject_reason_map]
    exact reject_fold_nodup _ _ (by decide)

/-- C7: the generated decode entry point classifies a begin-string
mismatch as a non-recoverable garbled message, a well-parsed third tag
other than MsgType 35 as a garbled message, and a well-placed but
unrecognized message-type value as an InvalidMsgtype rejection, which is
a classification distinct from every garbled-message failure. -/
theorem c7_deserialize_classification (compiled : String) (msg_types : List String)
    (deserializer : Deserializer) :
    (deserializer.begin_string ≠ compiled →
      fixt_message_deserialize compiled msg_types deserializer =
        Except.error (DeserializeError.garbledMessage "begin string mismatch"))
    ∧ (∀ n : Nat, deserializer.begin_string = compiled →
      deserializer.tag_num_result = Except.ok (some n) → n ≠ 35 →
      fixt_message_deserialize compiled msg_types deserializer =
        Except.error (DeserializeError.garbledMessage "MsgType<35> not third tag"))
    ∧ (∀ value : String, deserializer.begin_string = compiled →
      deserializer.tag_num_result = Except.ok (some 35) →
      deserializer.msg_type_result = Except.ok value →
      msg_types.contains value = false →
      fixt_message_deserialize compiled msg_types deserializer =
        Except.error (DeserializeError.reject (some 35) ParseRejectReason.invalidMsgtype))
    ∧ (∀ (text : String) (tag : Option Nat) (reason : ParseRejectReason),
      DeserializeError.garbledMessage text ≠ DeserializeError.reject tag reason) := by
  refine ⟨?_, ?_, ?_, ?_⟩
  · intro hne
    simp [fixt_message_deserialize, hne]
  · intro n heq htag hne
    simp only [fixt_message_deserialize, heq, htag]
    have : ¬(some n = some 35) := by simpa using hne
    simp [this]
  · intro value heq htag hval hmem
    have hnot : value ∉ msg_types := by simpa using hmem
    simp [fixt_message_deserialize, heq, htag, hval, hnot]
  · intro text tag reason h
    cases h

/-- C7 witness: the classification theorem applied to three concrete
inbound messages: wrong begin-string, third tag 49 instead of 35, and an
unknown message-type value. -/
theorem c7_deserialize_classification_witness :
    fixt_message_deserialize "FIXT.1.1" ["0"]
      { begin_string := "FIX.4.2", body_length := 10,
        tag_num_result := Except.ok (some 35), msg_type_result := Except.ok "0" } =
      Except.error (DeserializeError.garbledMessage "begin string mismatch")
    ∧ fixt_message_deserialize "FIXT.1.1" ["0"]
      { begin_string := "FIXT.1.1", body_length := 10,
        tag_num_result := Except.ok (some 49), msg_type_result := Except.ok "0" } =
      Except.error (DeserializeError.garbledMessage "MsgType<35> not third tag")
    ∧ fixt_message_deserialize "FIXT.1.1" ["0"]
      { begin_string := "FIXT.1.1", body_length := 10,
        tag_num_result := Except.ok (some 35), msg_type_result := Except.ok "ZZ" } =
      Except.error (DeserializeError.reject (some 35) ParseRejectReason.invalidMsgtype) :=
  ⟨(c7_deserialize_classification "FIXT.1.1" ["0"]
      { begin_string := "FIX.4.2", body_length := 10,
        tag_num_result := Except.ok (some 35), msg_type_result := Except.ok "0" }).1
      (by decide),
   (c7_deserialize_classification "FIXT.1.1" ["0"]
      { begin_string := "FIXT.1.1", body_length := 10,
        tag_num_result := Except.ok (some 49), msg_type_result := Except.ok "0" }).2.1
      49 rfl rfl (by decide),
   (c7_deserialize_classification "FIXT.1.1" ["0"]
      { begin_string := "FIXT.1.1", body_length := 10,
        tag_num_result := Except.ok (some 35), msg_type_result := Except.ok "ZZ" }).2.2.1
      "ZZ" rfl rfl rfl rfl⟩
